import Mathlib

/-!
Shallow embedding of the caddy-exec-stream middleware (src/middleware.go).

The middleware runs a configured external command on each HTTP request and
delivers the outcome in one of three modes: detached (terse JSON status),
collected/foreground (JSON with buffered stdout/stderr and exit code), or
streamed (Server-Sent Events).  We embed the handler `ServeHTTP` and its
helper `runAndCollectOutput` as pure functions from the configuration and a
per-request "world" (the oracle supplying the results of the OS-level and
transport-level operations the handler performs) to a trace of observable
effects plus the error value the handler returns to its host.
-/

namespace ExecStream

/-- The `Cmd` configuration embedded in `Middleware` (program, argument
templates, working directory, timeout and the three mode flags).
`timeout` is in nanoseconds as a `Nat`; `0` means unbounded, matching the
Go code's `m.timeout > 0` test. -/
structure Cmd where
  Command : String
  Args : List String
  Directory : String
  timeout : Nat
  Stream : Bool
  Foreground : Bool
  PassThru : Bool
  deriving DecidableEq, Repr

/-- One line scanned from one of the two pipes of a streamed run.  A list of
these is the interleaving that the two concurrent scanner goroutines produce;
the interleaving order is an input of the model (a schedule), since the two
pipes are drained concurrently. -/
inductive SLine where
  | out (s : String)
  | err (s : String)
  deriving DecidableEq, Repr

/-- The error returned by `cmd.Run()` in Go, as the foreground branch
classifies it: either an `*exec.ExitError` (the process ran and terminated
with the given exit code; `ExitCode()` is never `0` for an `ExitError`) or
any other error (the process could not be started or communicated with). -/
inductive RunErr where
  | exitErr (code : Int) (msg : String)
  | otherErr (msg : String)
  deriving DecidableEq, Repr

/-- `err.Error()` for a `RunErr`. -/
def RunErr.message : RunErr → String
  | RunErr.exitErr _ m => m
  | RunErr.otherErr m => m

/-- The outcome of `cmd.Run()` with the two `bytes.Buffer` accumulators in
`runAndCollectOutput`: whatever the process wrote to each buffer before
terminating, and the error value (or none on a zero exit). -/
structure CollectResult where
  stdout : String
  stderr : String
  err : Option RunErr
  deriving DecidableEq, Repr

/-- Per-request world: the resolver obtained from the request context and the
results of every OS-level or transport-level operation the handler may
perform.  Each field is the oracle for exactly one call site in the Go code. -/
structure ReqWorld where
  /-- `repl.ReplaceAll(argument, "")`: the per-request placeholder resolver. -/
  repl : String → String
  /-- whether `w.(http.Flusher)` succeeds on the response writer. -/
  flusherOK : Bool
  /-- Modelled from the spec: the result of `m.run(argv)` (the detached run
  helper, defined in this repository outside src/); per the spec it starts
  the process, waits for it to exit, and returns a single error value or
  nil, with no output capture. -/
  runErr : Option String
  /-- error from `cmd.StdoutPipe()` in the streamed branch. -/
  stdoutPipeErr : Option String
  /-- error from `cmd.StderrPipe()` in the streamed branch. -/
  stderrPipeErr : Option String
  /-- error from `cmd.Start()` in the streamed branch. -/
  startErr : Option String
  /-- the interleaved lines the two scanner goroutines deliver. -/
  schedule : List SLine
  /-- error from `cmd.Wait()` after both goroutines are joined. -/
  waitErr : Option String
  /-- outcome of `cmd.Run()` with buffers in `runAndCollectOutput`. -/
  collect : CollectResult
  /-- error returned by `next.ServeHTTP(w, r)` (the continuation). -/
  nextErr : Option String
  /-- error returned by `json.NewEncoder(w).Encode(resp)`. -/
  encodeErr : Option String

/-- The cancellation scope handed to `exec.CommandContext`: either the
request's own context `r.Context()`, or that context additionally bounded by
a timeout via `context.WithTimeout`. -/
inductive Ctx where
  | reqCtx
  | withTimeout (parent : Ctx) (d : Nat)
  deriving DecidableEq, Repr

/-- `ctx := r.Context(); if m.timeout > 0 { ctx, cancel = context.WithTimeout(ctx, m.timeout) }`
as written identically in the streamed branch of `ServeHTTP` and in
`runAndCollectOutput`.  The timer is armed at this point, i.e. at run start. -/
def mkRunCtx (timeout : Nat) : Ctx :=
  if timeout > 0 then Ctx.withTimeout Ctx.reqCtx timeout else Ctx.reqCtx

/-- Cancellation semantics of the embedded contexts: `reqCancelled t` tells
whether the triggering request's own scope is cancelled at time `t`, and a
`withTimeout` layer armed at `arm` additionally fires once `arm + d ≤ t`.
A context is cancelled as soon as either source fires (whichever is first). -/
def Ctx.cancelledAt : Ctx → (Nat → Bool) → Nat → Nat → Bool
  | Ctx.reqCtx, reqCancelled, _, t => reqCancelled t
  | Ctx.withTimeout p d, reqCancelled, arm, t =>
      p.cancelledAt reqCancelled arm t || decide (arm + d ≤ t)

/-- A Server-Sent Event frame written by the streamed branch: one of the four
event names `stdout`, `stderr`, `error`, `close` with its data line. -/
inductive SSEEvent where
  | stdout (s : String)
  | stderr (s : String)
  | error (s : String)
  | close
  deriving DecidableEq, Repr

/-- A JSON response body, kept structured: `none` in an optional field means
the field is omitted from the encoded object (Go's `omitempty`). -/
inductive Body where
  /-- the detached-mode struct `{Status string omitempty; Error string omitempty}`. -/
  | statusResp (status : Option String) (error : Option String)
  /-- the foreground-mode struct `{Status; Error omitempty; Stdout; Stderr; ExitCode}`;
  `status`, `stdout`, `stderr` and `exitCode` are always present. -/
  | collectResp (status : String) (error : Option String)
      (stdout : String) (stderr : String) (exitCode : Int)
  /-- the plain-text body written by `http.Error`. -/
  | httpError (msg : String)
  deriving DecidableEq, Repr

/-- One observable effect of the handler, in program order. -/
inductive Effect where
  | setHeader (k v : String)
  | addHeader (k v : String)
  | writeHeader (code : Nat)
  | writeBody (b : Body)
  | sse (ev : SSEEvent)
  | flush
  | logError (msg : String)
  /-- `m.run(argv)` was invoked with this resolved argument vector. -/
  | runDetached (argv : List String)
  /-- `exec.CommandContext(ctx, m.Command, argv...)` with `cmd.Dir` set. -/
  | execCmd (prog : String) (argv : List String) (dir : String) (c : Ctx)
  | callNext
  deriving DecidableEq, Repr

/-- Go's `omitempty` on the detached-mode struct: an empty string field is
omitted from the encoded JSON object. -/
def encodeStatusResp (status error : String) : Body :=
  Body.statusResp (if status = "" then none else some status)
    (if error = "" then none else some error)

/-- `argv[index] = repl.ReplaceAll(argument, "")` over `m.Args`: the resolved
argument vector, built once per request before mode dispatch. -/
def resolveArgs (args : List String) (repl : String → String) : List String :=
  args.map repl

/-- Modelled from the spec: `m.run(argv)` (detached run; source outside src/).
It starts the process, waits for exit, and returns success/failure as a
single error value; the effect records the argument vector it was given and
the result comes from the oracle. -/
def run (w : ReqWorld) (argv : List String) : List Effect × Option String :=
  ([Effect.runDetached argv], w.runErr)

/-- `resp.Status` as assigned by `runAndCollectOutput`. -/
def collectStatus : Option RunErr → String
  | some _ => "error"
  | none => "success"

/-- `resp.ExitCode` as assigned by `runAndCollectOutput`: the `ExitError`
code when the error is an `*exec.ExitError`, `-1` for any other error,
`0` on success. -/
def collectExitCode : Option RunErr → Int
  | some (RunErr.exitErr c _) => c
  | some (RunErr.otherErr _) => -1
  | none => 0

/-- `resp.Error` as assigned by `runAndCollectOutput` (`omitempty`: absent on
success). -/
def collectError : Option RunErr → Option String
  | some e => some e.message
  | none => none

/-- `w.WriteHeader(http.StatusInternalServerError)` is issued exactly when
`cmd.Run()` returned an error. -/
def collectHeaderEffts : Option RunErr → List Effect
  | some _ => [Effect.writeHeader 500]
  | none => []

/-- `runAndCollectOutput`: in pass-thru mode just run (via `m.run`), log any
error and continue to `next`; otherwise run the command with buffered
stdout/stderr under the (possibly timeout-bounded) request context and write
the collected JSON response. -/
def runAndCollectOutput (m : Cmd) (w : ReqWorld) (argv : List String) :
    List Effect × Option String :=
  if m.PassThru then
    let r := run w argv
    let logs : List Effect :=
      match r.snd with
      | some e => [Effect.logError e]
      | none => []
    (r.fst ++ logs ++ [Effect.callNext], w.nextErr)
  else
    let c := mkRunCtx m.timeout
    let res := w.collect
    (Effect.execCmd m.Command argv m.Directory c ::
        collectHeaderEffts res.err ++
        [Effect.setHeader "Content-Type" "application/json; charset=utf-8",
         Effect.writeBody (Body.collectResp (collectStatus res.err)
           (collectError res.err) res.stdout res.stderr (collectExitCode res.err))],
     w.encodeErr)

/-- The scanner-goroutine loop bodies: each complete line becomes one SSE
frame followed by a `flusher.Flush()`. -/
def lineEffects : List SLine → List Effect
  | [] => []
  | SLine.out s :: rest =>
      Effect.sse (SSEEvent.stdout s) :: Effect.flush :: lineEffects rest
  | SLine.err s :: rest =>
      Effect.sse (SSEEvent.stderr s) :: Effect.flush :: lineEffects rest

/-- The streamed branch of `ServeHTTP` (from `w.Header().Set(...)` on): set
the SSE headers; fail with `http.Error` if the writer is no `http.Flusher`;
otherwise build the (possibly timeout-bounded) context, create the command
and both pipes, start it, deliver the interleaved lines, join, wait, emit an
`error` event when `cmd.Wait()` failed, and emit the final `close` event.
Pipe-creation and start failures are logged and returned to the host. -/
def streamServe (m : Cmd) (w : ReqWorld) (argv : List String) :
    List Effect × Option String :=
  let hdrs : List Effect :=
    [Effect.setHeader "Content-Type" "text/event-stream",
     Effect.setHeader "Cache-Control" "no-cache",
     Effect.setHeader "Connection" "keep-alive"]
  if !w.flusherOK then
    (hdrs ++ [Effect.logError "streaming unsupported",
      Effect.writeHeader 500, Effect.writeBody (Body.httpError "Streaming unsupported!")],
     none)
  else
    let c := mkRunCtx m.timeout
    let pre := hdrs ++ [Effect.execCmd m.Command argv m.Directory c]
    match w.stdoutPipeErr with
    | some e => (pre ++ [Effect.logError ("getting stdout pipe: " ++ e)], some e)
    | none =>
      match w.stderrPipeErr with
      | some e => (pre ++ [Effect.logError ("getting stderr pipe: " ++ e)], some e)
      | none =>
        match w.startErr with
        | some e => (pre ++ [Effect.logError ("starting command: " ++ e)], some e)
        | none =>
          let tail : List Effect :=
            match w.waitErr with
            | some e => [Effect.logError ("command finished with error: " ++ e),
                Effect.sse (SSEEvent.error e), Effect.flush]
            | none => []
          (pre ++ lineEffects w.schedule ++ tail ++
            [Effect.sse SSEEvent.close, Effect.flush], none)

/-- The detached (non-stream, non-foreground) part of `ServeHTTP`: run via
`m.run`; in pass-thru mode log any error and continue to `next`; otherwise
encode the terse status struct, writing a 500 first in the error case. -/
def detachedServe (m : Cmd) (w : ReqWorld) (argv : List String) :
    List Effect × Option String :=
  let r := run w argv
  if m.PassThru then
    let logs : List Effect :=
      match r.snd with
      | some e => [Effect.logError e]
      | none => []
    (r.fst ++ logs ++ [Effect.callNext], w.nextErr)
  else
    match r.snd with
    | none =>
        (r.fst ++ [Effect.addHeader "content-type" "application/json",
          Effect.writeBody (encodeStatusResp "success" "")], w.encodeErr)
    | some e =>
        (r.fst ++ [Effect.writeHeader 500,
          Effect.addHeader "content-type" "application/json",
          Effect.writeBody (encodeStatusResp "" e)], w.encodeErr)

/-- `ServeHTTP`: resolve the argument templates once, then dispatch on the
mode flags — foreground collection or detached when `Stream` is unset, the
SSE logic when it is set. -/
def serveHTTP (m : Cmd) (w : ReqWorld) : List Effect × Option String :=
  let argv := resolveArgs m.Args w.repl
  if !m.Stream then
    if m.Foreground then runAndCollectOutput m w argv
    else detachedServe m w argv
  else streamServe m w argv

/-- The SSE frames of a trace, in delivery order. -/
def sseEvents (effs : List Effect) : List SSEEvent :=
  effs.filterMap fun e =>
    match e with
    | Effect.sse ev => some ev
    | _ => none

/-- The JSON/plain bodies written by a trace, in order. -/
def bodies (effs : List Effect) : List Body :=
  effs.filterMap fun e =>
    match e with
    | Effect.writeBody b => some b
    | _ => none

/-- The explicit `WriteHeader` status codes of a trace, in order. -/
def writeHeaders (effs : List Effect) : List Nat :=
  effs.filterMap fun e =>
    match e with
    | Effect.writeHeader c => some c
    | _ => none

/-- How many times the continuation `next.ServeHTTP` is invoked in a trace. -/
def countNext (effs : List Effect) : Nat :=
  (effs.filter fun e =>
    match e with
    | Effect.callNext => true
    | _ => false).length

/-- The SSE frames a given line schedule turns into. -/
def scheduleEvents : List SLine → List SSEEvent
  | [] => []
  | SLine.out s :: rest => SSEEvent.stdout s :: scheduleEvents rest
  | SLine.err s :: rest => SSEEvent.stderr s :: scheduleEvents rest

/-! Concrete configurations and worlds used to instantiate the theorems. -/

/-- A request world in which every operation succeeds and the process
produces nothing: the base point the concrete scenarios are built from. -/
def w0 : ReqWorld :=
  { repl := id, flusherOK := true, runErr := none, stdoutPipeErr := none,
    stderrPipeErr := none, startErr := none, schedule := [], waitErr := none,
    collect := { stdout := "", stderr := "", err := none },
    nextErr := none, encodeErr := none }

/-- A streamed configuration whose program does not exist. -/
def mStreamBad : Cmd :=
  { Command := "no-such-program", Args := [], Directory := "", timeout := 0,
    Stream := true, Foreground := false, PassThru := false }

/-- The world in which `cmd.Start()` fails (program not found). -/
def wStartFail : ReqWorld :=
  { w0 with startErr := some "exec: no-such-program: executable file not found in PATH" }

/-- The streamed configuration of the spec's concrete scenario C. -/
def mStreamOK : Cmd :=
  { Command := "sh", Args := ["-c", "echo out; echo err 1>&2"], Directory := "",
    timeout := 0, Stream := true, Foreground := false, PassThru := false }

/-- The world of scenario C: the process starts, writes one line to each
pipe, and exits with status zero. -/
def wStreamOK : ReqWorld :=
  { w0 with schedule := [SLine.out "out", SLine.err "err"] }

/-- The detached configuration of the spec's concrete scenario B. -/
def mDetached : Cmd :=
  { Command := "false", Args := [], Directory := "", timeout := 0,
    Stream := false, Foreground := false, PassThru := false }

/-- The world of scenario B: the detached run reports `exit status 1`. -/
def wExit1 : ReqWorld := { w0 with runErr := some "exit status 1" }

/-- A foreground (collected) configuration. -/
def mFg : Cmd :=
  { Command := "sh", Args := ["-c", "echo partial; exit 2"], Directory := "",
    timeout := 0, Stream := false, Foreground := true, PassThru := false }

/-- A collected run that produced output on both channels, then exited 2. -/
def wFgExit2 : ReqWorld :=
  { w0 with collect :=
      { stdout := "partial", stderr := "boom",
        err := some (RunErr.exitErr 2 "exit status 2") } }

/-- A collected run killed by cancellation after producing partial output:
Go reports an ExitError whose ExitCode is -1 for a signal-killed process. -/
def wFgKilled : ReqWorld :=
  { w0 with collect :=
      { stdout := "partial out", stderr := "",
        err := some (RunErr.exitErr (-1) "signal: killed") } }

/-- A pass-thru detached configuration. -/
def mPassThru : Cmd :=
  { Command := "false", Args := [], Directory := "", timeout := 0,
    Stream := false, Foreground := false, PassThru := true }

/-! Helper lemmas about the trace projections. -/

theorem sseEvents_append (a b : List Effect) :
    sseEvents (a ++ b) = sseEvents a ++ sseEvents b :=
  List.filterMap_append a b _

theorem bodies_append (a b : List Effect) :
    bodies (a ++ b) = bodies a ++ bodies b :=
  List.filterMap_append a b _

theorem writeHeaders_append (a b : List Effect) :
    writeHeaders (a ++ b) = writeHeaders a ++ writeHeaders b :=
  List.filterMap_append a b _

@[simp] theorem sseEvents_nil : sseEvents [] = [] := rfl

@[simp] theorem sseEvents_cons_sse (ev : SSEEvent) (l : List Effect) :
    sseEvents (Effect.sse ev :: l) = ev :: sseEvents l := rfl

@[simp] theorem sseEvents_cons_setHeader (k v : String) (l : List Effect) :
    sseEvents (Effect.setHeader k v :: l) = sseEvents l := rfl

@[simp] theorem sseEvents_cons_addHeader (k v : String) (l : List Effect) :
    sseEvents (Effect.addHeader k v :: l) = sseEvents l := rfl

@[simp] theorem sseEvents_cons_writeHeader (c : Nat) (l : List Effect) :
    sseEvents (Effect.writeHeader c :: l) = sseEvents l := rfl

@[simp] theorem sseEvents_cons_writeBody (b : Body) (l : List Effect) :
    sseEvents (Effect.writeBody b :: l) = sseEvents l := rfl

@[simp] theorem sseEvents_cons_flush (l : List Effect) :
    sseEvents (Effect.flush :: l) = sseEvents l := rfl

@[simp] theorem sseEvents_cons_logError (s : String) (l : List Effect) :
    sseEvents (Effect.logError s :: l) = sseEvents l := rfl

@[simp] theorem sseEvents_cons_execCmd (p : String) (v : List String)
    (d : String) (c : Ctx) (l : List Effect) :
    sseEvents (Effect.execCmd p v d c :: l) = sseEvents l := rfl

@[simp] theorem sseEvents_cons_runDetached (v : List String) (l : List Effect) :
    sseEvents (Effect.runDetached v :: l) = sseEvents l := rfl

@[simp] theorem sseEvents_cons_callNext (l : List Effect) :
    sseEvents (Effect.callNext :: l) = sseEvents l := rfl

@[simp] theorem bodies_nil : bodies [] = [] := rfl

@[simp] theorem bodies_cons_writeBody (b : Body) (l : List Effect) :
    bodies (Effect.writeBody b :: l) = b :: bodies l := rfl

@[simp] theorem bodies_cons_setHeader (k v : String) (l : List Effect) :
    bodies (Effect.setHeader k v :: l) = bodies l := rfl

@[simp] theorem bodies_cons_addHeader (k v : String) (l : List Effect) :
    bodies (Effect.addHeader k v :: l) = bodies l := rfl

@[simp] theorem bodies_cons_writeHeader (c : Nat) (l : List Effect) :
    bodies (Effect.writeHeader c :: l) = bodies l := rfl

@[simp] theorem bodies_cons_sse (ev : SSEEvent) (l : List Effect) :
    bodies (Effect.sse ev :: l) = bodies l := rfl

@[simp] theorem bodies_cons_flush (l : List Effect) :
    bodies (Effect.flush :: l) = bodies l := rfl

@[simp] theorem bodies_cons_logError (s : String) (l : List Effect) :
    bodies (Effect.logError s :: l) = bodies l := rfl

@[simp] theorem bodies_cons_execCmd (p : String) (v : List String)
    (d : String) (c : Ctx) (l : List Effect) :
    bodies (Effect.execCmd p v d c :: l) = bodies l := rfl

@[simp] theorem bodies_cons_runDetached (v : List String) (l : List Effect) :
    bodies (Effect.runDetached v :: l) = bodies l := rfl

@[simp] theorem bodies_cons_callNext (l : List Effect) :
    bodies (Effect.callNext :: l) = bodies l := rfl

@[simp] theorem writeHeaders_nil : writeHeaders [] = [] := rfl

@[simp] theorem writeHeaders_cons_writeHeader (c : Nat) (l : List Effect) :
    writeHeaders (Effect.writeHeader c :: l) = c :: writeHeaders l := rfl

@[simp] theorem writeHeaders_cons_setHeader (k v : String) (l : List Effect) :
    writeHeaders (Effect.setHeader k v :: l) = writeHeaders l := rfl

@[simp] theorem writeHeaders_cons_addHeader (k v : String) (l : List Effect) :
    writeHeaders (Effect.addHeader k v :: l) = writeHeaders l := rfl

@[simp] theorem writeHeaders_cons_writeBody (b : Body) (l : List Effect) :
    writeHeaders (Effect.writeBody b :: l) = writeHeaders l := rfl

@[simp] theorem writeHeaders_cons_sse (ev : SSEEvent) (l : List Effect) :
    writeHeaders (Effect.sse ev :: l) = writeHeaders l := rfl

@[simp] theorem writeHeaders_cons_flush (l : List Effect) :
    writeHeaders (Effect.flush :: l) = writeHeaders l := rfl

@[simp] theorem writeHeaders_cons_logError (s : String) (l : List Effect) :
    writeHeaders (Effect.logError s :: l) = writeHeaders l := rfl

@[simp] theorem writeHeaders_cons_execCmd (p : String) (v : List String)
    (d : String) (c : Ctx) (l : List Effect) :
    writeHeaders (Effect.execCmd p v d c :: l) = writeHeaders l := rfl

@[simp] theorem writeHeaders_cons_runDetached (v : List String) (l : List Effect) :
    writeHeaders (Effect.runDetached v :: l) = writeHeaders l := rfl

@[simp] theorem writeHeaders_cons_callNext (l : List Effect) :
    writeHeaders (Effect.callNext :: l) = writeHeaders l := rfl

theorem sseEvents_lineEffects (l : List SLine) :
    sseEvents (lineEffects l) = scheduleEvents l := by
  induction l with
  | nil => rfl
  | cons x rest ih =>
      cases x <;> simp [lineEffects, scheduleEvents, ih]

theorem scheduleEvents_line_shape (l : List SLine) :
    ∀ ev ∈ scheduleEvents l,
      (∃ s, ev = SSEEvent.stdout s) ∨ (∃ s, ev = SSEEvent.stderr s) := by
  induction l with
  | nil => intro ev h; cases h
  | cons x rest ih =>
      intro ev h
      cases x with
      | out s =>
          rcases List.mem_cons.mp h with h1 | h1
          · exact Or.inl ⟨s, h1⟩
          · exact ih ev h1
      | err s =>
          rcases List.mem_cons.mp h with h1 | h1
          · exact Or.inr ⟨s, h1⟩
          · exact ih ev h1

theorem not_mem_lineEffects_of_ne (e : Effect) (l : List SLine)
    (h1 : ∀ s, e ≠ Effect.sse (SSEEvent.stdout s))
    (h2 : ∀ s, e ≠ Effect.sse (SSEEvent.stderr s))
    (h3 : e ≠ Effect.flush) : e ∉ lineEffects l := by
  induction l with
  | nil => simp [lineEffects]
  | cons x rest ih =>
      cases x with
      | out s => simp [lineEffects, ih, h1 s, h3]
      | err s => simp [lineEffects, ih, h2 s, h3]

/-! Claim C1: shape of the streamed event sequence. -/

/-- Claim C1, as stated, is refuted at this input: on a streamed run whose
process could not be started (`cmd.Start()` fails), the handler returns the
start error without delivering any SSE event — in particular no `close`
event — contradicting the clause that a close event is delivered on every
streamed run, including runs where the process could not be started. -/
theorem C1_counterexample :
    mStreamBad.Stream = true ∧
      sseEvents (serveHTTP mStreamBad wStartFail).fst = [] := by
  exact ⟨rfl, rfl⟩

/-- Claim C1 (amended): for every streamed run in which the transport
supports flushing, both pipes are created and the process starts, the event
sequence delivered to the client is a (possibly empty) interleaving of
stdout-line and stderr-line events, followed by exactly one error event iff
the process ended with a non-zero/aborted outcome, followed by exactly one
close event, with nothing after it.  (When the process could not be started,
or a pipe could not be created, no event at all is delivered — in particular
no close event; see the counterexample.) -/
theorem C1_stream_event_sequence (m : Cmd) (w : ReqWorld)
    (hs : m.Stream = true) (hf : w.flusherOK = true)
    (h1 : w.stdoutPipeErr = none) (h2 : w.stderrPipeErr = none)
    (h3 : w.startErr = none) :
    sseEvents (serveHTTP m w).fst
      = scheduleEvents w.schedule
        ++ (match w.waitErr with
            | some e => [SSEEvent.error e]
            | none => [])
        ++ [SSEEvent.close]
    ∧ (∀ ev ∈ scheduleEvents w.schedule,
        (∃ s, ev = SSEEvent.stdout s) ∨ (∃ s, ev = SSEEvent.stderr s)) := by
  refine ⟨?_, scheduleEvents_line_shape w.schedule⟩
  simp only [serveHTTP, hs, Bool.not_true, Bool.false_eq_true, if_false,
    streamServe, hf, if_true, h1, h2, h3]
  cases hw : w.waitErr with
  | none =>
      simp [sseEvents_append, sseEvents_lineEffects]
  | some e =>
      simp [sseEvents_append, sseEvents_lineEffects]

/-- Witness for C1: the spec's concrete scenario C — one stdout line, one
stderr line, a zero exit — yields exactly the events stdout "out",
stderr "err", close. -/
theorem C1_stream_event_sequence_witness :
    sseEvents (serveHTTP mStreamOK wStreamOK).fst
      = [SSEEvent.stdout "out", SSEEvent.stderr "err", SSEEvent.close] := by
  have h := (C1_stream_event_sequence mStreamOK wStreamOK rfl rfl rfl rfl rfl).left
  simpa [wStreamOK, w0, scheduleEvents] using h

/-! Claim C2: shape of the detached responses. -/

/-- Claim C2, as stated, is refuted at this input: the spec's concrete
scenario B (detached run failing with "exit status 1") produces a body whose
status field is omitted — Go's struct leaves `Status` unassigned in the
error branch and it carries omitempty — so the body is the object with the
single field error, not the claimed status "error" plus error. -/
theorem C2_counterexample :
    bodies (serveHTTP mDetached wExit1).fst
      = [Body.statusResp none (some "exit status 1")]
    ∧ Body.statusResp none (some "exit status 1")
        ≠ Body.statusResp (some "error") (some "exit status 1") := by
  exact ⟨rfl, by simp⟩

/-- Claim C2 (amended): for every detached run (stream=false,
foreground=false, passThru=false), a successful run yields the single JSON
body with status "success" and no error field, and no explicit status code
(hence HTTP success); a failing run with non-empty message yields an
explicit 500 and the single JSON body with only the error field (the status
field is omitted).  In neither case does the body carry stdout or stderr
fields (the detached struct has none). -/
theorem C2_detached_response (m : Cmd) (w : ReqWorld)
    (hs : m.Stream = false) (hf : m.Foreground = false) (hp : m.PassThru = false) :
    (w.runErr = none →
      bodies (serveHTTP m w).fst = [Body.statusResp (some "success") none]
      ∧ writeHeaders (serveHTTP m w).fst = [])
    ∧ (∀ e, w.runErr = some e → e ≠ "" →
      bodies (serveHTTP m w).fst = [Body.statusResp none (some e)]
      ∧ writeHeaders (serveHTTP m w).fst = [500]) := by
  constructor
  · intro he
    simp [serveHTTP, hs, hf, hp, detachedServe, run, he, encodeStatusResp,
      bodies, writeHeaders, List.filterMap_cons]
  · intro e he hne
    simp [serveHTTP, hs, hf, hp, detachedServe, run, he, encodeStatusResp, hne,
      bodies, writeHeaders, List.filterMap_cons]

/-- Witness for C2 (amended) at the spec's concrete scenario B: the failing
detached run writes status code 500 and the body with only the error field. -/
theorem C2_detached_response_witness :
    bodies (serveHTTP mDetached wExit1).fst
      = [Body.statusResp none (some "exit status 1")]
    ∧ writeHeaders (serveHTTP mDetached wExit1).fst = [500] := by
  have h := (C2_detached_response mDetached wExit1 rfl rfl rfl).right
    "exit status 1" rfl (by simp)
  exact h

/-! Claim C3: shape of the collected (foreground) response. -/

/-- Claim C3: for every collected run (foreground=true, passThru=false) the
single JSON body always carries stdout, stderr and exit_code fields;
exit_code is 0 iff status is "success"; a process that exited non-zero
yields status "error" with its real exit code; a start failure (any
non-ExitError from cmd.Run) yields exit_code -1; and the error field is
present exactly when status is "error".  The hypothesis `hc` records the Go
guarantee that an ExitError never carries exit code 0. -/
theorem C3_collect_response (m : Cmd) (w : ReqWorld)
    (hs : m.Stream = false) (hf : m.Foreground = true) (hp : m.PassThru = false)
    (hc : ∀ c s, w.collect.err = some (RunErr.exitErr c s) → c ≠ 0) :
    bodies (serveHTTP m w).fst
      = [Body.collectResp (collectStatus w.collect.err) (collectError w.collect.err)
          w.collect.stdout w.collect.stderr (collectExitCode w.collect.err)]
    ∧ (collectExitCode w.collect.err = 0 ↔ collectStatus w.collect.err = "success")
    ∧ (∀ c s, w.collect.err = some (RunErr.exitErr c s) →
        collectStatus w.collect.err = "error" ∧ collectExitCode w.collect.err = c)
    ∧ (∀ s, w.collect.err = some (RunErr.otherErr s) →
        collectStatus w.collect.err = "error" ∧ collectExitCode w.collect.err = -1)
    ∧ ((collectError w.collect.err).isSome ↔ collectStatus w.collect.err = "error") := by
  refine ⟨?_, ?_, ?_, ?_, ?_⟩
  · cases he : w.collect.err with
    | none =>
        simp [serveHTTP, hs, hf, hp, runAndCollectOutput, he,
          collectHeaderEffts, bodies_append]
    | some e =>
        simp [serveHTTP, hs, hf, hp, runAndCollectOutput, he,
          collectHeaderEffts, bodies_append]
  · cases he : w.collect.err with
    | none => simp [collectExitCode, collectStatus]
    | some e =>
        cases e with
        | exitErr c s =>
            have hcne : c ≠ 0 := hc c s he
            simp [collectExitCode, collectStatus, hcne]
        | otherErr s =>
            simp [collectExitCode, collectStatus]
  · intro c s he
    simp [he, collectStatus, collectExitCode]
  · intro s he
    simp [he, collectStatus, collectExitCode]
  · cases he : w.collect.err with
    | none => simp [collectError, collectStatus]
    | some e => simp [collectError, collectStatus]

/-- Witness for C3: a collected run that wrote "partial" to stdout and
"boom" to stderr and exited 2 yields status "error", the error message,
both outputs and exit_code 2. -/
theorem C3_collect_response_witness :
    bodies (serveHTTP mFg wFgExit2).fst
      = [Body.collectResp "error" (some "exit status 2") "partial" "boom" 2] := by
  have h := (C3_collect_response mFg wFgExit2 rfl rfl rfl
    (by intro c s h; simp [wFgExit2, w0, RunErr.exitErr.injEq] at h; omega)).left
  simpa [wFgExit2, w0, collectStatus, collectError, collectExitCode, RunErr.message] using h

/-! Claim C10: partial output is returned on failure. -/

/-- Claim C10: for every collected run with passThru=false, the stdout and
stderr fields of the single JSON body are exactly the accumulated buffer
contents of the run — whatever the process produced before terminating —
independently of whether the outcome was success, non-zero exit,
cancellation or start failure. -/
theorem C10_partial_output (m : Cmd) (w : ReqWorld)
    (hs : m.Stream = false) (hf : m.Foreground = true) (hp : m.PassThru = false) :
    ∃ st er ec, bodies (serveHTTP m w).fst
      = [Body.collectResp st er w.collect.stdout w.collect.stderr ec] := by
  refine ⟨collectStatus w.collect.err, collectError w.collect.err,
    collectExitCode w.collect.err, ?_⟩
  cases he : w.collect.err with
  | none =>
      simp [serveHTTP, hs, hf, hp, runAndCollectOutput, he,
        collectHeaderEffts, bodies_append]
  | some e =>
      simp [serveHTTP, hs, hf, hp, runAndCollectOutput, he,
        collectHeaderEffts, bodies_append]

/-- Witness for C10: a collected run killed by cancellation after writing
"partial out" still returns that partial stdout in the body. -/
theorem C10_partial_output_witness :
    ∃ st er ec, bodies (serveHTTP mFg wFgKilled).fst
      = [Body.collectResp st er "partial out" "" ec] := by
  have h := C10_partial_output mFg wFgKilled rfl rfl rfl
  simpa [wFgKilled, w0] using h

/-! Claim C4: propagation of process-level errors to the host. -/

/-- Claim C4, as stated, is refuted at this input: on a streamed run whose
process fails to start, the handler returns that process-level start error
to the host (`return err` after `cmd.Start()` fails) instead of translating
it into a response shape — so not only transport errors surface. -/
theorem C4_counterexample :
    (serveHTTP mStreamBad wStartFail).snd
      = some "exec: no-such-program: executable file not found in PATH" := rfl

/-- Claim C4 (amended): in every non-streamed run the handler captures all
process-level errors locally and can only surface a transport result (the
continuation's return value in pass-thru mode, the JSON encoder's otherwise);
in a streamed run whose pipes are created and whose process starts, every
later process failure is handled locally and the handler returns no error
(likewise when the flusher is unsupported); but a streamed pipe-creation or
start failure is returned to the host as a handler error. -/
theorem C4_error_propagation (m : Cmd) (w : ReqWorld) :
    (m.Stream = false →
      (serveHTTP m w).snd = w.nextErr ∨ (serveHTTP m w).snd = w.encodeErr)
    ∧ (m.Stream = true → w.flusherOK = false → (serveHTTP m w).snd = none)
    ∧ (m.Stream = true → w.flusherOK = true → w.stdoutPipeErr = none →
        w.stderrPipeErr = none → w.startErr = none → (serveHTTP m w).snd = none)
    ∧ (m.Stream = true → w.flusherOK = true → w.stdoutPipeErr = none →
        w.stderrPipeErr = none → ∀ e, w.startErr = some e →
        (serveHTTP m w).snd = some e) := by
  refine ⟨?_, ?_, ?_, ?_⟩
  · intro hs
    cases hfg : m.Foreground with
    | true =>
        cases hpt : m.PassThru with
        | true => exact Or.inl (by simp [serveHTTP, hs, hfg, runAndCollectOutput, hpt, run])
        | false => exact Or.inr (by simp [serveHTTP, hs, hfg, runAndCollectOutput, hpt])
    | false =>
        cases hpt : m.PassThru with
        | true => exact Or.inl (by simp [serveHTTP, hs, hfg, detachedServe, hpt, run])
        | false =>
            refine Or.inr ?_
            cases he : w.runErr with
            | none => simp [serveHTTP, hs, hfg, detachedServe, hpt, run, he]
            | some e => simp [serveHTTP, hs, hfg, detachedServe, hpt, run, he]
  · intro hs hf
    simp [serveHTTP, hs, streamServe, hf]
  · intro hs hf h1 h2 h3
    cases hw : w.waitErr with
    | none => simp [serveHTTP, hs, streamServe, hf, h1, h2, h3]
    | some e => simp [serveHTTP, hs, streamServe, hf, h1, h2, h3]
  · intro hs hf h1 h2 e h3
    simp [serveHTTP, hs, streamServe, hf, h1, h2, h3]

/-- Witness for C4 (amended): the healthy streamed scenario returns no error
to the host. -/
theorem C4_error_propagation_witness :
    (serveHTTP mStreamOK wStreamOK).snd = none :=
  (C4_error_propagation mStreamOK wStreamOK).right.right.left rfl rfl rfl rfl rfl

/-! Claim C5: stream takes precedence over the other flags. -/

/-- Claim C5: whenever stream=true the foreground and passThru flags have no
effect (the handler's whole behaviour is unchanged under any values of
them), the continuation is never invoked, and the handler itself writes the
SSE response, beginning with the text/event-stream content type header. -/
theorem C5_stream_ignores_flags (m : Cmd) (w : ReqWorld) (hs : m.Stream = true) :
    (∀ fg pt : Bool,
      serveHTTP { m with Foreground := fg, PassThru := pt } w = serveHTTP m w)
    ∧ Effect.callNext ∉ (serveHTTP m w).fst
    ∧ ∃ rest, (serveHTTP m w).fst
        = Effect.setHeader "Content-Type" "text/event-stream" :: rest := by
  have hsrv : serveHTTP m w = streamServe m w (resolveArgs m.Args w.repl) := by
    simp [serveHTTP, hs]
  refine ⟨?_, ?_, ?_⟩
  · intro fg pt
    have h2 : serveHTTP { m with Foreground := fg, PassThru := pt } w
        = streamServe m w (resolveArgs m.Args w.repl) := by
      cases m
      simp [serveHTTP, streamServe] at hs ⊢
      simp [hs]
    rw [h2, hsrv]
  · rw [hsrv]
    unfold streamServe
    cases hf : w.flusherOK with
    | false => simp
    | true =>
        simp only [Bool.not_true, Bool.false_eq_true, if_false]
        cases h1 : w.stdoutPipeErr with
        | some e => simp
        | none =>
            cases h2 : w.stderrPipeErr with
            | some e => simp
            | none =>
                cases h3 : w.startErr with
                | some e => simp
                | none =>
                    cases hw : w.waitErr with
                    | none =>
                        simp [not_mem_lineEffects_of_ne Effect.callNext w.schedule
                          (by intro s h; cases h) (by intro s h; cases h) (by intro h; cases h)]
                    | some e =>
                        simp [not_mem_lineEffects_of_ne Effect.callNext w.schedule
                          (by intro s h; cases h) (by intro s h; cases h) (by intro h; cases h)]
  · rw [hsrv]
    unfold streamServe
    cases hf : w.flusherOK with
    | false => exact ⟨_, rfl⟩
    | true =>
        simp only [Bool.not_true, Bool.false_eq_true, if_false]
        cases h1 : w.stdoutPipeErr with
        | some e => exact ⟨_, rfl⟩
        | none =>
            cases h2 : w.stderrPipeErr with
            | some e => exact ⟨_, rfl⟩
            | none =>
                cases h3 : w.startErr with
                | some e => exact ⟨_, rfl⟩
                | none => exact ⟨_, rfl⟩

/-- Witness for C5: at the concrete streamed scenario, flipping both flags
changes nothing about the handler's behaviour. -/
theorem C5_stream_ignores_flags_witness :
    serveHTTP { mStreamOK with Foreground := true, PassThru := true } wStreamOK
      = serveHTTP mStreamOK wStreamOK :=
  (C5_stream_ignores_flags mStreamOK wStreamOK rfl).left true true

/-! Claim C6: pass-through behaviour of the non-streamed runs. -/

/-- Claim C6: for every non-streamed run with passThru=true — detached or
foreground alike — the continuation is invoked exactly once whatever the
process outcome, the process error (if any) appears in the trace only as a
log entry, the handler writes neither a body nor a status code of its own,
and the value it returns to the host is the continuation's result. -/
theorem C6_passthru (m : Cmd) (w : ReqWorld)
    (hs : m.Stream = false) (hp : m.PassThru = true) :
    countNext (serveHTTP m w).fst = 1
    ∧ bodies (serveHTTP m w).fst = []
    ∧ writeHeaders (serveHTTP m w).fst = []
    ∧ (∀ e, w.runErr = some e → Effect.logError e ∈ (serveHTTP m w).fst)
    ∧ (serveHTTP m w).snd = w.nextErr := by
  have hshape : (serveHTTP m w).fst
      = [Effect.runDetached (resolveArgs m.Args w.repl)]
        ++ (match w.runErr with
            | some e => [Effect.logError e]
            | none => ([] : List Effect))
        ++ [Effect.callNext]
      ∧ (serveHTTP m w).snd = w.nextErr := by
    cases hfg : m.Foreground with
    | true =>
        constructor
        · simp [serveHTTP, hs, hfg, runAndCollectOutput, hp, run]
        · simp [serveHTTP, hs, hfg, runAndCollectOutput, hp, run]
    | false =>
        constructor
        · simp [serveHTTP, hs, hfg, detachedServe, hp, run]
        · simp [serveHTTP, hs, hfg, detachedServe, hp, run]
  refine ⟨?_, ?_, ?_, ?_, hshape.right⟩
  · rw [hshape.left]
    cases w.runErr with
    | none => rfl
    | some e => rfl
  · rw [hshape.left]
    cases w.runErr with
    | none => rfl
    | some e => rfl
  · rw [hshape.left]
    cases w.runErr with
    | none => rfl
    | some e => rfl
  · intro e he
    rw [hshape.left, he]
    simp

/-- Witness for C6: the failing detached pass-thru run calls the
continuation once, writes nothing and logs the error. -/
theorem C6_passthru_witness :
    countNext (serveHTTP mPassThru wExit1).fst = 1
    ∧ bodies (serveHTTP mPassThru wExit1).fst = []
    ∧ Effect.logError "exit status 1" ∈ (serveHTTP mPassThru wExit1).fst := by
  have h := C6_passthru mPassThru wExit1 rfl rfl
  exact ⟨h.left, h.right.left, h.right.right.right.left "exit status 1" rfl⟩

/-! Claim C7: streamed mode without flusher support. -/

/-- Claim C7: in streamed mode, when the response writer does not support
flushing, the handler's whole trace is: the three SSE headers, the
"streaming unsupported" log entry, an explicit HTTP 500 with the
http.Error body — and nothing else; no process is started (no exec effect
occurs) and no error is returned to the host. -/
theorem C7_no_flusher (m : Cmd) (w : ReqWorld)
    (hs : m.Stream = true) (hf : w.flusherOK = false) :
    (serveHTTP m w).fst
      = [Effect.setHeader "Content-Type" "text/event-stream",
         Effect.setHeader "Cache-Control" "no-cache",
         Effect.setHeader "Connection" "keep-alive",
         Effect.logError "streaming unsupported",
         Effect.writeHeader 500,
         Effect.writeBody (Body.httpError "Streaming unsupported!")]
    ∧ (serveHTTP m w).snd = none
    ∧ (∀ p v d c, Effect.execCmd p v d c ∉ (serveHTTP m w).fst) := by
  have h1 : (serveHTTP m w).fst
      = [Effect.setHeader "Content-Type" "text/event-stream",
         Effect.setHeader "Cache-Control" "no-cache",
         Effect.setHeader "Connection" "keep-alive",
         Effect.logError "streaming unsupported",
         Effect.writeHeader 500,
         Effect.writeBody (Body.httpError "Streaming unsupported!")] := by
    simp [serveHTTP, hs, streamServe, hf]
  refine ⟨h1, ?_, ?_⟩
  · simp [serveHTTP, hs, streamServe, hf]
  · intro p v d c
    rw [h1]
    simp

/-- Witness for C7: a streamed configuration on a transport without flush
support produces exactly the 500 trace. -/
theorem C7_no_flusher_witness :
    (serveHTTP mStreamOK { wStreamOK with flusherOK := false }).snd = none :=
  (C7_no_flusher mStreamOK { wStreamOK with flusherOK := false } rfl rfl).right.left

/-! Shape of the exec effects across the three strategies. -/

theorem serveHTTP_dispatch (m : Cmd) (w : ReqWorld) :
    serveHTTP m w
      = if m.Stream then streamServe m w (resolveArgs m.Args w.repl)
        else if m.Foreground then runAndCollectOutput m w (resolveArgs m.Args w.repl)
        else detachedServe m w (resolveArgs m.Args w.repl) := by
  cases hs : m.Stream <;> cases hfg : m.Foreground <;> simp [serveHTTP, hs, hfg]

theorem detachedServe_exec_shape (m : Cmd) (w : ReqWorld) (argv : List String) :
    (∀ p v d c, Effect.execCmd p v d c ∉ (detachedServe m w argv).fst)
    ∧ (∀ v, Effect.runDetached v ∈ (detachedServe m w argv).fst → v = argv) := by
  constructor
  · intro p v d c
    cases hpt : m.PassThru <;> cases he : w.runErr <;>
      simp [detachedServe, run, hpt, he]
  · intro v hv
    cases hpt : m.PassThru <;> cases he : w.runErr <;>
      simpa [detachedServe, run, hpt, he] using hv

theorem runAndCollectOutput_exec_shape (m : Cmd) (w : ReqWorld) (argv : List String) :
    (∀ p v d c, Effect.execCmd p v d c ∈ (runAndCollectOutput m w argv).fst →
      p = m.Command ∧ v = argv ∧ d = m.Directory ∧ c = mkRunCtx m.timeout)
    ∧ (∀ v, Effect.runDetached v ∈ (runAndCollectOutput m w argv).fst → v = argv) := by
  constructor
  · intro p v d c hv
    cases hpt : m.PassThru with
    | true =>
        cases he2 : w.runErr <;> simp [runAndCollectOutput, run, hpt, he2] at hv
    | false =>
        cases he : w.collect.err <;>
          simpa [runAndCollectOutput, hpt, he, collectHeaderEffts] using hv
  · intro v hv
    cases hpt : m.PassThru with
    | true =>
        cases he2 : w.runErr <;> simpa [runAndCollectOutput, run, hpt, he2] using hv
    | false =>
        cases he : w.collect.err <;>
          simp [runAndCollectOutput, hpt, he, collectHeaderEffts] at hv

theorem streamServe_exec_shape (m : Cmd) (w : ReqWorld) (argv : List String) :
    (∀ p v d c, Effect.execCmd p v d c ∈ (streamServe m w argv).fst →
      p = m.Command ∧ v = argv ∧ d = m.Directory ∧ c = mkRunCtx m.timeout)
    ∧ (∀ v, Effect.runDetached v ∉ (streamServe m w argv).fst) := by
  have hline1 : ∀ p v d c,
      Effect.execCmd p v d c ∉ lineEffects w.schedule := by
    intro p v d c
    exact not_mem_lineEffects_of_ne _ _ (by intro s h; cases h)
      (by intro s h; cases h) (by intro h; cases h)
  have hline2 : ∀ v, Effect.runDetached v ∉ lineEffects w.schedule := by
    intro v
    exact not_mem_lineEffects_of_ne _ _ (by intro s h; cases h)
      (by intro s h; cases h) (by intro h; cases h)
  constructor
  · intro p v d c hv
    cases hf : w.flusherOK with
    | false => simp [streamServe, hf] at hv
    | true =>
        cases h1 : w.stdoutPipeErr with
        | some e => simpa [streamServe, hf, h1] using hv
        | none =>
          cases h2 : w.stderrPipeErr with
          | some e => simpa [streamServe, hf, h1, h2] using hv
          | none =>
            cases h3 : w.startErr with
            | some e => simpa [streamServe, hf, h1, h2, h3] using hv
            | none =>
                cases hw : w.waitErr with
                | none =>
                    simp [streamServe, hf, h1, h2, h3, hw] at hv
                    rcases hv with hv | hv
                    · exact hv
                    · exact absurd hv (hline1 p v d c)
                | some e =>
                    simp [streamServe, hf, h1, h2, h3, hw] at hv
                    rcases hv with hv | hv
                    · exact hv
                    · exact absurd hv (hline1 p v d c)
  · intro v hv
    cases hf : w.flusherOK with
    | false => simp [streamServe, hf] at hv
    | true =>
        cases h1 : w.stdoutPipeErr with
        | some e => simp [streamServe, hf, h1] at hv
        | none =>
          cases h2 : w.stderrPipeErr with
          | some e => simp [streamServe, hf, h1, h2] at hv
          | none =>
            cases h3 : w.startErr with
            | some e => simp [streamServe, hf, h1, h2, h3] at hv
            | none =>
                cases hw : w.waitErr with
                | none =>
                    simp [streamServe, hf, h1, h2, h3, hw] at hv
                    exact absurd hv (hline2 v)
                | some e =>
                    simp [streamServe, hf, h1, h2, h3, hw] at hv
                    exact absurd hv (hline2 v)

theorem serveHTTP_exec_shape (m : Cmd) (w : ReqWorld) :
    (∀ p v d c, Effect.execCmd p v d c ∈ (serveHTTP m w).fst →
      p = m.Command ∧ v = resolveArgs m.Args w.repl
        ∧ d = m.Directory ∧ c = mkRunCtx m.timeout)
    ∧ (∀ v, Effect.runDetached v ∈ (serveHTTP m w).fst →
        v = resolveArgs m.Args w.repl) := by
  rw [serveHTTP_dispatch]
  cases hs : m.Stream with
  | true =>
      have h := streamServe_exec_shape m w (resolveArgs m.Args w.repl)
      constructor
      · intro p v d c hv
        simp at hv
        exact h.left p v d c hv
      · intro v hv
        simp at hv
        exact absurd hv (h.right v)
  | false =>
      cases hfg : m.Foreground with
      | true =>
          simpa using runAndCollectOutput_exec_shape m w (resolveArgs m.Args w.repl)
      | false =>
          have h := detachedServe_exec_shape m w (resolveArgs m.Args w.repl)
          constructor
          · intro p v d c hv
            simp at hv
            exact absurd hv (h.left p v d c)
          · intro v hv
            simp at hv
            exact h.right v hv

/-! Claim C8: the cancellation scope of streamed and collected runs. -/

/-- Claim C8: every process the handler launches (streamed or collected) is
launched under the context built by mkRunCtx from the configured timeout;
when the timeout is zero that context is exactly the request's own scope,
whose cancellation is precisely the request's cancellation; when the timeout
is positive it is the request scope additionally bounded by the timeout
armed at run start, and it is cancelled at a time exactly when the request
scope has fired or the armed timer has elapsed — whichever happens first. -/
theorem C8_cancellation_scope (m : Cmd) (w : ReqWorld) :
    (m.timeout = 0 → mkRunCtx m.timeout = Ctx.reqCtx)
    ∧ (∀ reqC : Nat → Bool, ∀ arm t : Nat,
        Ctx.cancelledAt Ctx.reqCtx reqC arm t = reqC t)
    ∧ (0 < m.timeout →
        mkRunCtx m.timeout = Ctx.withTimeout Ctx.reqCtx m.timeout
        ∧ ∀ reqC : Nat → Bool, ∀ arm t : Nat,
            Ctx.cancelledAt (mkRunCtx m.timeout) reqC arm t
              = (reqC t || decide (arm + m.timeout ≤ t)))
    ∧ (∀ p v d c, Effect.execCmd p v d c ∈ (serveHTTP m w).fst →
        c = mkRunCtx m.timeout) := by
  refine ⟨?_, ?_, ?_, ?_⟩
  · intro h
    simp [mkRunCtx, h]
  · intro reqC arm t
    rfl
  · intro h
    constructor
    · simp [mkRunCtx, h]
    · intro reqC arm t
      simp [mkRunCtx, h, Ctx.cancelledAt]
  · intro p v d c hv
    exact ((serveHTTP_exec_shape m w).left p v d c hv).right.right.right

/-- Witness for C8: with no timeout configured the streamed scenario runs
its process under exactly the request's own context. -/
theorem C8_cancellation_scope_witness :
    mkRunCtx mStreamOK.timeout = Ctx.reqCtx :=
  (C8_cancellation_scope mStreamOK wStreamOK).left rfl

/-! Claim C9: argument resolution happens once, before dispatch. -/

/-- Claim C9: the resolved argument vector has exactly one element per
configured argument template, each obtained by applying the per-request
resolver to that template, and every process launch in the handler's trace —
the exec effects of the streamed and collected strategies and the detached
run helper alike — receives exactly this vector. -/
theorem C9_arg_resolution (m : Cmd) (w : ReqWorld) :
    (resolveArgs m.Args w.repl).length = m.Args.length
    ∧ (∀ i : Nat, (resolveArgs m.Args w.repl)[i]? = (m.Args[i]?).map w.repl)
    ∧ (∀ p v d c, Effect.execCmd p v d c ∈ (serveHTTP m w).fst →
        v = resolveArgs m.Args w.repl)
    ∧ (∀ v, Effect.runDetached v ∈ (serveHTTP m w).fst →
        v = resolveArgs m.Args w.repl) := by
  refine ⟨List.length_map m.Args w.repl, ?_, ?_, ?_⟩
  · intro i
    exact List.getElem?_map w.repl m.Args i
  · intro p v d c hv
    exact ((serveHTTP_exec_shape m w).left p v d c hv).right.left
  · intro v hv
    exact (serveHTTP_exec_shape m w).right v hv

/-- Witness for C9: the resolved vector of the streamed scenario has one
element per template. -/
theorem C9_arg_resolution_witness :
    (resolveArgs mStreamOK.Args wStreamOK.repl).length = mStreamOK.Args.length :=
  (C9_arg_resolution mStreamOK wStreamOK).left

end ExecStream
